import Mathlib

/-!
Verification of the Supabase MCP connector (`supabase_mcp_connector.py`).

The file shallowly embeds the connector's core: the JSON values a PostgREST
response body can hold together with the Python-level operations the code
performs on them (truthiness, `str()` coercion, subscripting, `.get`,
iteration), the two connector operations `search_documents` and
`fetch_document` as functions of the outcome of the single outbound HTTP
request, the two tool-surface wrappers `search` and `fetch`, and the
module-level configuration validation.
-/

/-- A JSON value as decoded by `response.json()` into a Python object:
`null ↦ None`, booleans, numbers (modelled as integers), strings, arrays
(Python lists) and objects (Python dicts). -/
inductive JsonVal where
  | null
  | bool (b : Bool)
  | num (n : Int)
  | str (s : String)
  | arr (elems : List JsonVal)
  | obj (fields : List (String × JsonVal))

/-- Python truthiness of a decoded JSON value, as tested by
`if not results:` in `fetch_document`: `None`, `False`, `0`, the empty
string, the empty list and the empty dict are falsy. -/
def pyFalsy : JsonVal → Bool
  | .null => true
  | .bool b => !b
  | .num n => n == 0
  | .str s => s == ""
  | .arr l => l.isEmpty
  | .obj l => l.isEmpty

mutual

/-- Python `repr` of a decoded JSON value (string quoting simplified:
always a straight single quote, written `\x27`, with no escaping of the
contents). Used by `pyStr` for container values. -/
def pyRepr : JsonVal → String
  | .null => "None"
  | .bool true => "True"
  | .bool false => "False"
  | .num n => toString n
  | .str s => "\x27" ++ s ++ "\x27"
  | .arr l => "[" ++ String.intercalate ", " (pyReprList l) ++ "]"
  | .obj l => "\x7b" ++ String.intercalate ", " (pyReprFields l) ++ "\x7d"

/-- `repr` of each element of a Python list. -/
def pyReprList : List JsonVal → List String
  | [] => []
  | v :: vs => pyRepr v :: pyReprList vs

/-- `repr` of each `key: value` entry of a Python dict. -/
def pyReprFields : List (String × JsonVal) → List String
  | [] => []
  | (k, v) :: fs => ("\x27" ++ k ++ "\x27: " ++ pyRepr v) :: pyReprFields fs

end

/-- Python `str()` coercion, as applied by `str(doc[ID_COLUMN])`: a string
is returned unchanged, any other value is rendered by `repr`/`str`
(`None`, `True`, `False`, decimal integers, container reprs). -/
def pyStr : JsonVal → String
  | .str s => s
  | v => pyRepr v

/-- A Python exception as classified by the two `except` clauses of the
connector: `requestExc` covers `requests.exceptions.RequestException` and
its subclasses (connection errors, timeouts, `HTTPError` from
`raise_for_status`, and — in requests ≥ 2.27 — `JSONDecodeError`);
`otherExc` covers every other `Exception` (`KeyError`, `TypeError`,
`AttributeError`, `IndexError`). The payload is Python's `str(e)`. -/
inductive PyExc where
  | requestExc (msg : String)
  | otherExc (msg : String)

/-- First-match lookup of a key among a dict's entries (Python dict keys
are unique, so first match is the match). -/
def lookupField : List (String × JsonVal) → String → Option JsonVal
  | [], _ => none
  | (k, v) :: fs, key => if k = key then some v else lookupField fs key

/-- Python subscripting `value[key]` with a string key: succeeds only on a
dict holding the key; a dict without the key raises `KeyError` (whose
`str()` is the quoted key); any non-dict value raises `TypeError`. -/
def pySubscript (v : JsonVal) (key : String) : Except PyExc JsonVal :=
  match v with
  | .obj fields =>
    match lookupField fields key with
    | some x => .ok x
    | none => .error (.otherExc ("\x27" ++ key ++ "\x27"))
  | _ => .error (.otherExc "indexing a non-dict value with a string key")

/-- Python `value.get(key, default)`: on a dict, the stored value when the
key is present — even when that value is `None` — and the default when it
is absent; on a non-dict, `AttributeError`. -/
def pyGet (v : JsonVal) (key : String) (dflt : JsonVal) : Except PyExc JsonVal :=
  match v with
  | .obj fields => .ok ((lookupField fields key).getD dflt)
  | _ => .error (.otherExc "value has no attribute get")

/-- Python iteration `for doc in results`: a list yields its elements, a
dict its keys, a string its characters; `None`, booleans and numbers are
not iterable (`TypeError`). -/
def pyIter : JsonVal → Except PyExc (List JsonVal)
  | .arr l => .ok l
  | .obj fields => .ok (fields.map (fun kv => JsonVal.str kv.1))
  | .str s => .ok (s.data.map (fun c => JsonVal.str c.toString))
  | _ => .error (.otherExc "value is not iterable")

/-- Python `results[0]`: first element of a non-empty list (or first
character of a non-empty string); `IndexError` when empty, `KeyError` on a
dict, `TypeError` otherwise. -/
def pyGetItem0 : JsonVal → Except PyExc JsonVal
  | .arr (x :: _) => .ok x
  | .arr [] => .error (.otherExc "list index out of range")
  | .str s =>
    match s.data with
    | c :: _ => .ok (.str c.toString)
    | [] => .error (.otherExc "string index out of range")
  | .obj _ => .error (.otherExc "0")
  | _ => .error (.otherExc "value is not subscriptable")

/-- Outcome of the single `requests.get` call a connector operation
issues: either the call itself raised a `RequestException` (connection
failure, timeout — the unreachable-API case), or a response arrived with a
final status code and a body that either decodes as JSON (`some`) or does
not (`none`). -/
inductive HttpOutcome where
  | transportError (msg : String)
  | response (status : Nat) (body : Option JsonVal)

/-- The environment-derived configuration the connector reads:
`SEARCH_COLUMNS` (split on commas), `ID_COLUMN`, `TITLE_COLUMN`,
`CONTENT_COLUMN`. -/
structure Config where
  search_columns : List String
  id_column : String
  title_column : String
  content_column : String

/-- The defaults: `SEARCH_COLUMNS = "title,content".split(",")`,
`ID_COLUMN = "id"`, `TITLE_COLUMN = "title"`, `CONTENT_COLUMN =
"content"`. -/
def defaultConfig : Config :=
  { search_columns := ["title", "content"]
    id_column := "id"
    title_column := "title"
    content_column := "content" }

/-- Python truthiness of `os.getenv`'s result: `None` (variable unset) and
the empty string are falsy. -/
def pyTruthyStr : Option String → Bool
  | none => false
  | some s => s != ""

/-- The module-level validation
`if not SUPABASE_URL or not SUPABASE_ANON_KEY: raise ValueError(...)`:
startup aborts with the `ValueError` message exactly when either setting
is falsy. -/
def validateConfig (url key : Option String) : Except String Unit :=
  if !(pyTruthyStr url) || !(pyTruthyStr key) then
    .error "SUPABASE_URL and SUPABASE_ANON_KEY environment variables are required"
  else
    .ok ()

/-- One per-column predicate of the search filter, built by the f-string
`f"\x7bcolumn\x7d.ilike.%\x7bquery\x7d%"` — the query is interpolated
raw, with no escaping. -/
def ilike_condition (column query : String) : String :=
  column ++ ".ilike.%" ++ query ++ "%"

/-- The `or_conditions` list of `search_documents`: one ilike predicate
per configured search column. -/
def or_conditions (cols : List String) (query : String) : List String :=
  cols.map (fun c => ilike_condition c query)

/-- The `filter_param` string of `search_documents`:
`f"or=(\x7b ','.join(or_conditions) \x7d)"`. -/
def filter_param (cols : List String) (query : String) : String :=
  "or=(" ++ String.intercalate "," (or_conditions cols query) ++ ")"

/-- Structural splitter on a single character (accumulator holds the
current piece reversed). Models Python's `str.split` on one character and
a comma-separated argument list parser. -/
def splitCharAux (c : Char) : List Char → List Char → List String
  | [], acc => [String.mk acc.reverse]
  | d :: ds, acc =>
    if d = c then String.mk acc.reverse :: splitCharAux c ds []
    else splitCharAux c ds (d :: acc)

/-- Split a string on every occurrence of a character, Python
`s.split(c)`: always at least one piece. -/
def splitChar (c : Char) (s : String) : List String :=
  splitCharAux c s.data []

/-- The value placed under the `or` query parameter:
`filter_param.split("=")[1]`. The list has at least two elements because
`filter_param` starts with `or=`, so the Python `[1]` never raises; the
default covers the unreachable branch. -/
def filterParamValue (cols : List String) (query : String) : String :=
  (splitChar (Char.ofNat 61) (filter_param cols query)).getD 1 ""

/-- Modelled from the spec (glossary: tabular data API, PostgREST-style):
how the receiving API reads the parenthesized body of an `or=(...)`
filter — as a comma-separated list of predicates. Used to state what the
issued filter expression means to the server. -/
def orFilterArgs (cols : List String) (query : String) : List String :=
  splitChar (Char.ofNat 44) (String.intercalate "," (or_conditions cols query))

/-- The list comprehension `[str(doc[ID_COLUMN]) for doc in results]`:
subscript each row with the id column and coerce to string, aborting the
whole comprehension on the first exception. -/
def rowIds (id_column : String) : List JsonVal → Except PyExc (List String)
  | [] => .ok []
  | doc :: rest =>
    match pySubscript doc id_column with
    | .error e => .error e
    | .ok v =>
      match rowIds id_column rest with
      | .error e => .error e
      | .ok ids => .ok (pyStr v :: ids)

/-- The body of `search_documents`'s `try` block: build the filter
parameter, issue the request, `raise_for_status` (which raises `HTTPError`
exactly for status codes in 400–599), decode the body (a decode failure
raises `JSONDecodeError`, a `RequestException` subclass in requests ≥
2.27), iterate the result and collect `str(doc[ID_COLUMN])` per row. -/
def search_documents_try (cfg : Config) (query : String) (o : HttpOutcome) :
    Except PyExc (List String) :=
  let _filter := filter_param cfg.search_columns query
  match o with
  | .transportError m => .error (.requestExc m)
  | .response status body =>
    if 400 ≤ status ∧ status < 600 then
      .error (.requestExc ("HTTP error: status " ++ toString status))
    else
      match body with
      | none => .error (.requestExc "Expecting value: line 1 column 1 (char 0)")
      | some results =>
        match pyIter results with
        | .error e => .error e
        | .ok docs => rowIds cfg.id_column docs

/-- `search_documents`: the `try` body, with both `except` clauses logging
and returning the empty list. -/
def search_documents (cfg : Config) (query : String) (o : HttpOutcome) :
    List String :=
  match search_documents_try cfg query o with
  | .ok ids => ids
  | .error _ => []

/-- The shape returned by the `search` tool: a dict with the single key
`ids`. -/
structure SearchResult where
  ids : List String

/-- The `search` tool: forwards to `search_documents` and wraps the result
under the `ids` key. -/
def search (cfg : Config) (query : String) (o : HttpOutcome) : SearchResult :=
  { ids := search_documents cfg query o }

/-- The dict returned by `fetch_document`: `id` is always a Python string;
`title` and `content` are whatever values the code put there (a row's
stored JSON value on success — possibly `null` — or the Python string `""`
on the error paths); `error` is the optional error entry. -/
structure FetchResult where
  id : String
  title : JsonVal
  content : JsonVal
  error : Option String

/-- The messages of `fetch_document`'s two `except` clauses:
`f"Request failed: \x7be\x7d"` for a `RequestException`,
`f"Fetch error: \x7be\x7d"` for any other exception. -/
def fetchErrorMsg : PyExc → String
  | .requestExc m => "Request failed: " ++ m
  | .otherExc m => "Fetch error: " ++ m

/-- The body of `fetch_document`'s `try` block: issue the request,
`raise_for_status`, decode; an empty (falsy) result is the not-found
return; otherwise take `results[0]` and build
`str(doc[ID_COLUMN])` / `doc.get(TITLE_COLUMN, "")` /
`doc.get(CONTENT_COLUMN, "")` in that evaluation order. -/
def fetch_document_try (cfg : Config) (doc_id : String) (o : HttpOutcome) :
    Except PyExc FetchResult :=
  match o with
  | .transportError m => .error (.requestExc m)
  | .response status body =>
    if 400 ≤ status ∧ status < 600 then
      .error (.requestExc ("HTTP error: status " ++ toString status))
    else
      match body with
      | none => .error (.requestExc "Expecting value: line 1 column 1 (char 0)")
      | some results =>
        if pyFalsy results then
          .ok { id := doc_id, title := .str "", content := .str "",
                error := some "Document not found" }
        else
          match pyGetItem0 results with
          | .error e => .error e
          | .ok doc =>
            match pySubscript doc cfg.id_column with
            | .error e => .error e
            | .ok idv =>
              match pyGet doc cfg.title_column (.str "") with
              | .error e => .error e
              | .ok title =>
                match pyGet doc cfg.content_column (.str "") with
                | .error e => .error e
                | .ok content =>
                  .ok { id := pyStr idv, title := title, content := content,
                        error := none }

/-- `fetch_document`: the `try` body, with each `except` clause returning
the caller-supplied id, empty title and content, and its class's error
message. -/
def fetch_document (cfg : Config) (doc_id : String) (o : HttpOutcome) :
    FetchResult :=
  match fetch_document_try cfg doc_id o with
  | .ok r => r
  | .error e =>
    { id := doc_id, title := .str "", content := .str "",
      error := some (fetchErrorMsg e) }

/-- The `fetch` tool: forwards to `fetch_document` and returns its result
unchanged. -/
def fetch (cfg : Config) (doc_id : String) (o : HttpOutcome) : FetchResult :=
  fetch_document cfg doc_id o

/-- A row from which `str(doc[ID_COLUMN])` can be read without raising: a
JSON object that holds the configured id column. -/
def rowHasId (id_column : String) : JsonVal → Bool
  | .obj fields => (lookupField fields id_column).isSome
  | _ => false

/-- A decoded response body of the shape `search_documents` consumes
without raising: a JSON array each of whose rows holds the id column. -/
def wellFormedRows (id_column : String) : JsonVal → Bool
  | .arr rows => rows.all (rowHasId id_column)
  | _ => false

/-- The failure conditions of a search call: the request raised a
transport error, or the response status makes `raise_for_status` raise
(4xx/5xx), or the body is not decodable JSON, or it decodes to something
other than an array of rows each holding the id column. -/
def searchFailure (id_column : String) : HttpOutcome → Prop
  | .transportError _ => True
  | .response status body =>
    (400 ≤ status ∧ status < 600) ∨ body = none ∨
      ∃ j, body = some j ∧ wellFormedRows id_column j = false

/-- The request-level failure conditions of a fetch call: a transport
error raised by `requests.get`, or a status code on which
`raise_for_status` raises (4xx/5xx). -/
def fetchTransportFailure : HttpOutcome → Prop
  | .transportError _ => True
  | .response status _ => 400 ≤ status ∧ status < 600

/-- A string with a non-empty first part appended to anything is not the
empty string. -/
theorem append_ne_empty (p s : String) (hp : p.data ≠ []) : p ++ s ≠ "" := by
  intro h
  have hd := congrArg String.data h
  rw [String.data_append] at hd
  exact hp (List.append_eq_nil.mp hd).1

/-- Two appends whose left parts start with different characters are
different strings. -/
theorem append_ne_of_head_ne {c d : Char} {cs ds : List Char}
    (p q s t : String) (hp : p.data = c :: cs) (hq : q.data = d :: ds)
    (hcd : c ≠ d) : p ++ s ≠ q ++ t := by
  intro h
  have hd := congrArg String.data h
  rw [String.data_append, String.data_append, hp, hq, List.cons_append,
    List.cons_append] at hd
  injection hd with h1 _
  exact hcd h1

/-- An append whose left part starts with one character differs from any
string starting with another. -/
theorem append_ne_of_head_ne2 {c d : Char} {cs ds : List Char}
    (p s q : String) (hp : p.data = c :: cs) (hq : q.data = d :: ds)
    (hcd : c ≠ d) : p ++ s ≠ q := by
  intro h
  have hd := congrArg String.data h
  rw [String.data_append, hp, hq, List.cons_append] at hd
  injection hd with h1 _
  exact hcd h1

/-- A row that `rowHasId` rejects makes `str(doc[ID_COLUMN])` raise. -/
theorem pySubscript_error_of_not_rowHasId (idc : String) (r : JsonVal)
    (hr : rowHasId idc r = false) : ∃ e, pySubscript r idc = .error e := by
  cases r with
  | obj fields =>
    cases hl : lookupField fields idc with
    | none =>
      exact ⟨.otherExc ("\x27" ++ idc ++ "\x27"), by simp [pySubscript, hl]⟩
    | some v => simp [rowHasId, hl] at hr
  | null => exact ⟨_, rfl⟩
  | bool b => exact ⟨_, rfl⟩
  | num n => exact ⟨_, rfl⟩
  | str s => exact ⟨_, rfl⟩
  | arr l => exact ⟨_, rfl⟩

/-- The id-collecting comprehension aborts with an exception as soon as
any element of the iterated list lacks the id column. -/
theorem rowIds_error_of_mem (idc : String) (docs : List JsonVal)
    (r : JsonVal) (hmem : r ∈ docs) (hr : rowHasId idc r = false) :
    ∃ e, rowIds idc docs = .error e := by
  induction docs with
  | nil => cases hmem
  | cons d ds ih =>
    rcases List.mem_cons.mp hmem with rfl | hmem2
    · obtain ⟨e, he⟩ := pySubscript_error_of_not_rowHasId idc r hr
      exact ⟨e, by simp [rowIds, he]⟩
    · cases hsub : pySubscript d idc with
      | error e2 => exact ⟨e2, by simp [rowIds, hsub]⟩
      | ok v =>
        obtain ⟨e, he⟩ := ih hmem2
        exact ⟨e, by simp [rowIds, hsub, he]⟩

/-- A body that is not an array of id-bearing rows always yields the
empty id list: either iteration or the comprehension raises — caught and
turned into `[]` — or the body was an empty container and the
comprehension legitimately produced `[]`. -/
theorem search_documents_empty_of_not_wellFormed (cfg : Config)
    (q : String) (s : Nat) (j : JsonVal)
    (hwf : wellFormedRows cfg.id_column j = false) :
    search_documents cfg q (.response s (some j)) = [] := by
  by_cases hc : 400 ≤ s ∧ s < 600
  · simp [search_documents, search_documents_try, hc]
  · cases j with
    | null => simp [search_documents, search_documents_try, hc, pyIter]
    | bool b => simp [search_documents, search_documents_try, hc, pyIter]
    | num n => simp [search_documents, search_documents_try, hc, pyIter]
    | str s0 =>
      cases h0 : s0.data with
      | nil =>
        simp [search_documents, search_documents_try, hc, pyIter, h0, rowIds]
      | cons a as =>
        simp [search_documents, search_documents_try, hc, pyIter, h0, rowIds,
          pySubscript]
    | obj fields =>
      cases fields with
      | nil =>
        simp [search_documents, search_documents_try, hc, pyIter, rowIds]
      | cons f fs =>
        simp [search_documents, search_documents_try, hc, pyIter, rowIds,
          pySubscript]
    | arr rows =>
      have hex : ∃ r ∈ rows, rowHasId cfg.id_column r = false := by
        simpa [wellFormedRows, List.all_eq_false] using hwf
      obtain ⟨r, hmem, hr⟩ := hex
      obtain ⟨e, he⟩ := rowIds_error_of_mem cfg.id_column rows r hmem hr
      simp [search_documents, search_documents_try, hc, pyIter, he]

/-- C1: the claim says `search_documents` escapes filter-syntax characters
in the query so the issued predicates match the literal substring. The
code interpolates the raw query: for `query = "a,b"` under the default
configuration the per-column predicates embed the bare comma, the value
issued under the `or` parameter is
`(title.ilike.%a,b%,content.ilike.%a,b%)`, and a comma-separated argument
parser reads that body as four fragments instead of the two intended
predicates — the literal query substring is not preserved. -/
theorem C1_unescaped_query_breaks_filter :
    or_conditions defaultConfig.search_columns "a,b" =
      ["title.ilike.%a,b%", "content.ilike.%a,b%"] ∧
    filterParamValue defaultConfig.search_columns "a,b" =
      "(title.ilike.%a,b%,content.ilike.%a,b%)" ∧
    orFilterArgs defaultConfig.search_columns "a,b" =
      ["title.ilike.%a", "b%", "content.ilike.%a", "b%"] ∧
    (orFilterArgs defaultConfig.search_columns "a,b").length ≠
      (or_conditions defaultConfig.search_columns "a,b").length := by
  exact ⟨by decide, by decide, by decide, by decide⟩

/-- C2 (amended): on a transport error, a 4xx/5xx status, an undecodable
body, or a decoded body that is not an array of rows each holding the id
column, `search_documents` returns the empty list and the `search` tool
returns `\x7b ids: [] \x7d`; no exception propagates (the embedding is a
total function). -/
theorem C2_search_fail_soft (cfg : Config) (q : String) (o : HttpOutcome)
    (h : searchFailure cfg.id_column o) :
    search_documents cfg q o = [] ∧ search cfg q o = { ids := [] } := by
  have main : search_documents cfg q o = [] := by
    cases o with
    | transportError m => rfl
    | response s body =>
      simp only [searchFailure] at h
      rcases h with hstat | hnone | ⟨j, hbody, hwf⟩
      · simp [search_documents, search_documents_try, hstat]
      · subst hnone
        by_cases hc : 400 ≤ s ∧ s < 600 <;>
          simp [search_documents, search_documents_try, hc]
      · subst hbody
        exact search_documents_empty_of_not_wellFormed cfg q s j hwf
  exact ⟨main, by simp [search, main]⟩

/-- C2 witness: an unreachable backing API (the request raises a
connection error) yields `search(q) == \x7b ids: [] \x7d`. -/
theorem C2_search_fail_soft_witness :
    search defaultConfig "anything" (.transportError "connection refused") =
      { ids := [] } :=
  (C2_search_fail_soft defaultConfig "anything"
    (.transportError "connection refused") trivial).2

/-- C2 counterexample: the claim as stated promises the empty sequence for
every non-2xx status, but `raise_for_status` raises only on 4xx/5xx: a
final 300 response (e.g. a redirect status without a Location header,
which `requests` returns as-is) whose body is a well-formed row array
yields a non-empty id list. -/
theorem C2_non2xx_counterexample :
    search_documents defaultConfig "cats"
      (.response 300 (some (.arr [.obj [("id", .num 7)]]))) = ["7"] ∧
    search_documents defaultConfig "cats"
      (.response 300 (some (.arr [.obj [("id", .num 7)]]))) ≠ [] := by
  exact ⟨by decide, by decide⟩

/-- C3 (amended): on a transport error or a 4xx/5xx status,
`fetch_document` returns the caller-supplied id, empty title and content,
and a non-empty error string; no exception propagates. -/
theorem C3_fetch_transport_failure (cfg : Config) (doc_id : String)
    (o : HttpOutcome) (h : fetchTransportFailure o) :
    ∃ m, fetch_document cfg doc_id o =
      { id := doc_id, title := .str "", content := .str "",
        error := some m } ∧ m ≠ "" := by
  cases o with
  | transportError msg =>
    exact ⟨"Request failed: " ++ msg, rfl,
      append_ne_empty _ _ (by decide)⟩
  | response s body =>
    have hc : 400 ≤ s ∧ s < 600 := h
    refine ⟨"Request failed: " ++ ("HTTP error: status " ++ toString s),
      ?_, append_ne_empty _ _ (by decide)⟩
    simp [fetch_document, fetch_document_try, fetchErrorMsg, hc]

/-- C3 witness: an unreachable backing API yields
`fetch(i) == \x7b id: i, title: "", content: "", error: non-empty \x7d`. -/
theorem C3_fetch_transport_failure_witness :
    ∃ m, fetch_document defaultConfig "42" (.transportError "no route to host") =
      { id := "42", title := .str "", content := .str "",
        error := some m } ∧ m ≠ "" :=
  C3_fetch_transport_failure defaultConfig "42"
    (.transportError "no route to host") trivial

/-- C3 counterexample: the claim as stated covers every non-2xx status,
but a final 300 response with a well-formed row body is not raised on by
`raise_for_status`: the result carries no error and echoes the API's row
id (`"7"`), not the caller-supplied `"42"`. -/
theorem C3_non2xx_counterexample :
    (fetch_document defaultConfig "42"
      (.response 300 (some (.arr [.obj [("id", .num 7), ("title", .str "T"),
        ("content", .str "C")]])))).error = none ∧
    (fetch_document defaultConfig "42"
      (.response 300 (some (.arr [.obj [("id", .num 7), ("title", .str "T"),
        ("content", .str "C")]])))).id ≠ "42" := by
  exact ⟨rfl, by decide⟩

/-- C4: a 2xx response whose body decodes to the empty JSON array makes
`fetch_document` return exactly
`\x7b id, title: "", content: "", error: "Document not found" \x7d`, and
neither `except` clause can produce the string `"Document not found"`, so
the not-found case is distinguished from transport errors by its error
value. -/
theorem C4_not_found (cfg : Config) (doc_id : String) (s : Nat)
    (h1 : 200 ≤ s) (h2 : s < 300) :
    fetch_document cfg doc_id (.response s (some (.arr []))) =
      { id := doc_id, title := .str "", content := .str "",
        error := some "Document not found" } ∧
    (∀ e, fetchErrorMsg e ≠ "Document not found") := by
  constructor
  · have hc : ¬(400 ≤ s ∧ s < 600) := by omega
    simp [fetch_document, fetch_document_try, hc, pyFalsy]
  · intro e
    cases e with
    | requestExc m => exact append_ne_of_head_ne2 _ _ _ rfl rfl (by decide)
    | otherExc m => exact append_ne_of_head_ne2 _ _ _ rfl rfl (by decide)

/-- C4 witness: concrete not-found call at status 200. -/
theorem C4_not_found_witness :
    fetch_document defaultConfig "9" (.response 200 (some (.arr []))) =
      { id := "9", title := .str "", content := .str "",
        error := some "Document not found" } :=
  (C4_not_found defaultConfig "9" 200 (by decide) (by decide)).1

/-- C5 (amended): on a 2xx response whose body is a non-empty array whose
first row is an object holding the id column, `fetch_document` returns the
first row only, with `id = str(row[id_column])`, `title` and `content`
taken by `dict.get` with default `""` — so a missing key maps to the empty
string, but a key present with JSON `null` is passed through as `null`
(Python `None`), not replaced by `""` — and no error entry. -/
theorem C5_first_row_mapping (cfg : Config) (doc_id : String) (s : Nat)
    (fields : List (String × JsonVal)) (rest : List JsonVal) (idv : JsonVal)
    (h1 : 200 ≤ s) (h2 : s < 300)
    (hid : lookupField fields cfg.id_column = some idv) :
    fetch_document cfg doc_id
      (.response s (some (.arr (.obj fields :: rest)))) =
      { id := pyStr idv,
        title := (lookupField fields cfg.title_column).getD (.str ""),
        content := (lookupField fields cfg.content_column).getD (.str ""),
        error := none } := by
  have hc : ¬(400 ≤ s ∧ s < 600) := by omega
  simp [fetch_document, fetch_document_try, hc, pyFalsy, pyGetItem0,
    pySubscript, hid, pyGet]

/-- C5 witness: a row with the title key absent maps it to the empty
string, the second row is ignored, and the id is the row's value coerced
to string. -/
theorem C5_first_row_mapping_witness :
    fetch_document defaultConfig "42"
      (.response 200 (some (.arr
        [.obj [("id", .num 7), ("content", .str "c")],
         .obj [("id", .num 8)]]))) =
      { id := "7", title := .str "", content := .str "c", error := none } :=
  C5_first_row_mapping defaultConfig "42" 200
    [("id", .num 7), ("content", .str "c")] [.obj [("id", .num 8)]]
    (.num 7) (by decide) (by decide) rfl

/-- C5 counterexample: the claim says a null title value maps to the empty
string, but `dict.get(key, "")` returns the stored `None` when the key is
present with a JSON `null` value: the returned title is `null`, not
`""`. -/
theorem C5_null_title_counterexample :
    (fetch_document defaultConfig "7"
      (.response 200 (some (.arr [.obj [("id", .num 7), ("title", .null),
        ("content", .str "c")]])))).title = JsonVal.null ∧
    JsonVal.null ≠ JsonVal.str "" :=
  ⟨rfl, fun h => JsonVal.noConfusion h⟩

/-- C6: whenever the `try` body of `fetch_document` raises, the result
echoes the caller-supplied id with empty title and content and the error
message of the exception's class — `"Request failed: <e>"` for the
request-exception class (network, timeout, 4xx/5xx status),
`"Fetch error: <e>"` for every other exception — and the two classes'
messages are never empty and never equal to one another. -/
theorem C6_error_classes (cfg : Config) (doc_id : String) (o : HttpOutcome)
    (e : PyExc) (h : fetch_document_try cfg doc_id o = .error e) :
    fetch_document cfg doc_id o =
      { id := doc_id, title := .str "", content := .str "",
        error := some (fetchErrorMsg e) } ∧
    fetchErrorMsg e ≠ "" ∧
    (∀ m m2, fetchErrorMsg (.requestExc m) ≠ fetchErrorMsg (.otherExc m2)) := by
  refine ⟨by simp [fetch_document, h], ?_, ?_⟩
  · cases e with
    | requestExc m => exact append_ne_empty _ _ (by decide)
    | otherExc m => exact append_ne_empty _ _ (by decide)
  · intro m m2
    show "Request failed: " ++ m ≠ "Fetch error: " ++ m2
    exact append_ne_of_head_ne _ _ _ _ rfl rfl (by decide)

/-- C6 witness: a concrete timeout produces the request-class error
shape. -/
theorem C6_error_classes_witness :
    fetch_document defaultConfig "9" (.transportError "timed out") =
      { id := "9", title := .str "", content := .str "",
        error := some ("Request failed: " ++ "timed out") } :=
  (C6_error_classes defaultConfig "9" (.transportError "timed out")
    (.requestExc "timed out") rfl).1

/-- C7: on a 2xx response whose body is a JSON array, when `ids` is
row-by-row the string coercion of each row's id-column value (stated by
`List.Forall₂`, so order is preserved), `search_documents` returns exactly
`ids` and the `search` tool wraps exactly that list under the single key
`ids`. -/
theorem C7_search_success (cfg : Config) (q : String) (s : Nat)
    (rows : List JsonVal) (ids : List String)
    (h1 : 200 ≤ s) (h2 : s < 300)
    (hids : List.Forall₂
      (fun r i => ∃ v, pySubscript r cfg.id_column = .ok v ∧ i = pyStr v)
      rows ids) :
    search_documents cfg q (.response s (some (.arr rows))) = ids ∧
    search cfg q (.response s (some (.arr rows))) = { ids := ids } := by
  have hrow : rowIds cfg.id_column rows = .ok ids := by
    induction hids with
    | nil => rfl
    | cons h3 h4 ih =>
      obtain ⟨v, hv, rfl⟩ := h3
      simp [rowIds, hv, ih]
  have hc : ¬(400 ≤ s ∧ s < 600) := by omega
  have main : search_documents cfg q (.response s (some (.arr rows))) = ids := by
    simp [search_documents, search_documents_try, hc, pyIter, hrow]
  exact ⟨main, by simp [search, main]⟩

/-- C7 witness: two rows, one integer id and one string id, in response
order. -/
theorem C7_search_success_witness :
    search defaultConfig "cats"
      (.response 200 (some (.arr
        [.obj [("id", .num 3), ("title", .str "Cats")],
         .obj [("id", .str "x")]]))) = { ids := ["3", "x"] } :=
  (C7_search_success defaultConfig "cats" 200
    [.obj [("id", .num 3), ("title", .str "Cats")], .obj [("id", .str "x")]]
    ["3", "x"] (by decide) (by decide)
    (.cons ⟨.num 3, rfl, rfl⟩ (.cons ⟨.str "x", rfl, rfl⟩ .nil))).2

/-- C8 (amended): startup proceeds exactly when both settings are present
and non-empty; an absent or empty base URL or credential makes the
module-level check raise `ValueError` (Python truthiness: the empty
string is as fatal as an unset variable). -/
theorem C8_config_validation (url key : Option String) :
    validateConfig url key = .ok () ↔
      (∃ u, url = some u ∧ u ≠ "") ∧ (∃ k, key = some k ∧ k ≠ "") := by
  cases url with
  | none => simp [validateConfig, pyTruthyStr]
  | some u =>
    cases key with
    | none => simp [validateConfig, pyTruthyStr]
    | some k =>
      by_cases hu : u = "" <;> by_cases hk : k = "" <;>
        simp [validateConfig, pyTruthyStr, hu, hk]

/-- C8 witness: both settings present and non-empty, startup proceeds. -/
theorem C8_config_validation_witness :
    validateConfig (some "https://x.supabase.co") (some "anon-key") =
      .ok () :=
  (C8_config_validation (some "https://x.supabase.co")
    (some "anon-key")).mpr
    ⟨⟨"https://x.supabase.co", rfl, by decide⟩, ⟨"anon-key", rfl, by decide⟩⟩

/-- C8 counterexample: both settings present (the environment variables
are set) but the URL is the empty string: the claim says startup proceeds
when both are present, yet the check raises the `ValueError`. -/
theorem C8_empty_url_counterexample :
    validateConfig (some "") (some "anon-key") =
      .error "SUPABASE_URL and SUPABASE_ANON_KEY environment variables are required" ∧
    (some "" : Option String) ≠ none ∧
    (some "anon-key" : Option String) ≠ none := by
  exact ⟨rfl, by decide, by decide⟩

/-- C9: if any row of a returned array makes `rowHasId` false — in
particular any row lacking the configured id column — the comprehension
raises, the exception is caught, and the whole search call returns the
empty list: no partial id list is ever returned. -/
theorem C9_no_partial_ids (cfg : Config) (q : String) (s : Nat)
    (rows : List JsonVal) (r : JsonVal) (hmem : r ∈ rows)
    (hr : rowHasId cfg.id_column r = false) :
    search_documents cfg q (.response s (some (.arr rows))) = [] := by
  by_cases hc : 400 ≤ s ∧ s < 600
  · simp [search_documents, search_documents_try, hc]
  · obtain ⟨e, he⟩ := rowIds_error_of_mem cfg.id_column rows r hmem hr
    simp [search_documents, search_documents_try, hc, pyIter, he]

/-- C9 witness: the first row is well-formed but the second lacks the id
column: the whole call returns `[]`, not `["1"]`. -/
theorem C9_no_partial_ids_witness :
    search_documents defaultConfig "q"
      (.response 200 (some (.arr
        [.obj [("id", .num 1)], .obj [("title", .str "t")]]))) = [] :=
  C9_no_partial_ids defaultConfig "q" 200
    [.obj [("id", .num 1)], .obj [("title", .str "t")]]
    (.obj [("title", .str "t")]) (.tail _ (.head _)) rfl

/-- C10: on a 2xx response whose body is a non-empty array whose first row
is an object lacking the configured id column, `str(doc[ID_COLUMN])`
raises `KeyError` before any field is taken, the generic `except` clause
catches it, and `fetch_document` returns the caller-supplied id, empty
title and content, and an error string beginning `"Fetch error: "`. -/
theorem C10_first_row_missing_id (cfg : Config) (doc_id : String) (s : Nat)
    (fields : List (String × JsonVal)) (rest : List JsonVal)
    (h1 : 200 ≤ s) (h2 : s < 300)
    (hlack : lookupField fields cfg.id_column = none) :
    fetch_document cfg doc_id
      (.response s (some (.arr (.obj fields :: rest)))) =
      { id := doc_id, title := .str "", content := .str "",
        error := some ("Fetch error: " ++
          ("\x27" ++ cfg.id_column ++ "\x27")) } := by
  have hc : ¬(400 ≤ s ∧ s < 600) := by omega
  simp [fetch_document, fetch_document_try, hc, pyFalsy, pyGetItem0,
    pySubscript, hlack, fetchErrorMsg]

/-- C10 witness: a first row holding only a title. -/
theorem C10_first_row_missing_id_witness :
    fetch_document defaultConfig "42"
      (.response 200 (some (.arr [.obj [("title", .str "t")]]))) =
      { id := "42", title := .str "", content := .str "",
        error := some "Fetch error: \x27id\x27" } :=
  C10_first_row_missing_id defaultConfig "42" 200
    [("title", .str "t")] [] (by decide) (by decide) rfl
